import Mathlib

/-!
Shallow embedding of the EcoGTasks task domain engine
(src/app/backend/models.py, routes/tasks.py, routes/projects.py,
routes/dashboard.py, utils/decorators.py, utils/forms.py).

Dates are modelled as integer day numbers, hours as rationals,
statuses and priorities as the literal strings stored in the database
columns. Each mutating route is a function returning `Except RouteError`:
`.error .permissionDenied` models `abort(403)` from the access decorator
or the in-route permission check, `.error .validationError` models a
rejected form (`validate_on_submit()` false) or an invalid status value;
in both cases the route commits nothing.
-/

namespace EcoG

/-- TaskStatus.TODO.value in models.py -/
def todoV : String := "To Do"

/-- TaskStatus.IN_PROGRESS.value in models.py -/
def inProgressV : String := "In Progress"

/-- TaskStatus.BLOCKED.value in models.py -/
def blockedV : String := "Blocked"

/-- TaskStatus.DONE.value in models.py -/
def doneV : String := "Done"

/-- Models `[s.value for s in TaskStatus]`. -/
def validStatuses : List String := [todoV, inProgressV, blockedV, doneV]

/-- TaskPriority values in models.py -/
def validPriorities : List String := ["Low", "Medium", "High"]

inductive UserRole where
  | admin
  | manager
  | employee
deriving DecidableEq, Repr

structure User where
  id : Nat
  username : String
  role : UserRole
deriving DecidableEq, Repr

structure Project where
  id : Nat
  created_by : Nat
  members : List Nat
deriving DecidableEq, Repr

structure Task where
  id : Nat
  title : String
  description : String
  status : String
  priority : String
  assigned_to : Option Nat
  created_by : Nat
  project_id : Nat
  due_date : Option Int
  estimated_hours : ℚ
  completion_percentage : Int
deriving DecidableEq, Repr

structure TaskHistory where
  task_id : Nat
  user_id : Nat
  action : String
  field_name : Option String
  old_value : Option String
  new_value : Option String
deriving DecidableEq, Repr

structure TimeLog where
  task_id : Nat
  user_id : Nat
  hours_spent : ℚ
  logged_date : Int
deriving DecidableEq, Repr

/-- Models `User.is_admin`. -/
def is_admin (u : User) : Bool := u.role == .admin

/-- Models `User.is_manager`. -/
def is_manager (u : User) : Bool := u.role == .manager

/-- Models `User.is_manager_or_admin`. -/
def is_manager_or_admin (u : User) : Bool :=
  u.role == .admin || u.role == .manager

/-- Models `User.can_access_project`: admin, or in `project.members`, or project creator. -/
def can_access_project (u : User) (p : Project) : Bool :=
  is_admin u || p.members.contains u.id || p.created_by == u.id

/-- The `task_access_required` decorator (decorators.py lines 83-127):
admin; manager with project access; assignee or task creator;
or any project member/creator. `p` is the task's parent project. -/
def can_access_task (u : User) (t : Task) (p : Project) : Bool :=
  is_admin u
  || (is_manager u && can_access_project u p)
  || t.assigned_to == some u.id
  || t.created_by == u.id
  || can_access_project u p

inductive RouteError where
  | permissionDenied
  | validationError
deriving DecidableEq, Repr

/-- Models `str(v) if v else None` in `log_task_history`: a falsy (empty) string
value is stored as NULL. -/
def strOrNone : Option String → Option String
  | none => none
  | some s => if s = "" then none else some s

/-- Models `log_task_history` in routes/tasks.py: builds one TaskHistory row. -/
def log_task_history (t : Task) (u : User) (action : String)
    (field_name old_value new_value : Option String) : TaskHistory :=
  { task_id := t.id
    user_id := u.id
    action := action
    field_name := field_name
    old_value := strOrNone old_value
    new_value := strOrNone new_value }

/-- The `'Unassigned'` display fallback used by edit/reassign routes;
`uname` models `User.query.get(i).username`. -/
def assigneeName (uname : Nat → String) : Option Nat → String
  | none => "Unassigned"
  | some i => uname i

/-- The `update_status` route (tasks.py lines 336-365) guarded by
`task_access_required`: validates the status string, forces completion
to 100 on Done and 0 on To Do, logs one `status_changed` entry. -/
def update_status (u : User) (t : Task) (p : Project)
    (hist : List TaskHistory) (status : String) :
    Except RouteError (Task × List TaskHistory) :=
  if ¬ can_access_task u t p then .error .permissionDenied
  else if ¬ validStatuses.contains status then .error .validationError
  else
    let t1 : Task :=
      { t with
        status := status
        completion_percentage :=
          if status = doneV then 100
          else if status = todoV then 0
          else t.completion_percentage }
    .ok (t1, hist ++
      [log_task_history t u "status_changed" (some "status")
        (some t.status) (some status)])

/-- The `UpdateProgressForm` validation (forms.py lines 232-238):
`DataRequired()` rejects a falsy value — the integer 0 included —
then `NumberRange(min=0, max=100)`. -/
def progressFormValid (p : Int) : Bool :=
  p ≠ 0 && 0 ≤ p && p ≤ 100

/-- The percentage snapshot strings used by `update_progress`. -/
def pctStr (n : Int) : String := toString n ++ "%"

/-- The `update_progress` route (tasks.py lines 399-432) guarded by
`task_access_required`: on 100 and status ≠ Done sets Done and logs
`status_changed` first; on 0 < p < 100 and status = To Do sets
In Progress and logs `status_changed` first; always logs one
`progress_updated` entry last. -/
def update_progress (u : User) (t : Task) (p : Project)
    (hist : List TaskHistory) (pct : Int) :
    Except RouteError (Task × List TaskHistory) :=
  if ¬ can_access_task u t p then .error .permissionDenied
  else if ¬ progressFormValid pct then .error .validationError
  else
    let old_pct := t.completion_percentage
    if pct = 100 ∧ t.status ≠ doneV then
      .ok ({ t with status := doneV, completion_percentage := pct },
        hist ++
          [log_task_history t u "status_changed" (some "status")
            (some t.status) (some doneV),
           log_task_history t u "progress_updated" (some "completion")
            (some (pctStr old_pct)) (some (pctStr pct))])
    else if 0 < pct ∧ pct < 100 ∧ t.status = todoV then
      .ok ({ t with status := inProgressV, completion_percentage := pct },
        hist ++
          [log_task_history t u "status_changed" (some "status")
            (some t.status) (some inProgressV),
           log_task_history t u "progress_updated" (some "completion")
            (some (pctStr old_pct)) (some (pctStr pct))])
    else
      .ok ({ t with completion_percentage := pct },
        hist ++
          [log_task_history t u "progress_updated" (some "completion")
            (some (pctStr old_pct)) (some (pctStr pct))])

/-- The task create/edit form (`TaskForm`, forms.py lines 122-159).
`assigned_to = 0` means Unassigned. -/
structure TaskForm where
  title : String
  description : String
  status : String
  priority : String
  assigned_to : Nat
  project_id : Nat
  due_date : Option Int
deriving DecidableEq, Repr

/-- The `TaskForm` validators: title required and ≤ 200 chars,
description ≤ 5000 chars, status/priority among the closed choices,
due date not in the past (`validate_due_date`). -/
def taskFormValid (f : TaskForm) (today : Int) : Bool :=
  f.title ≠ "" && f.title.length ≤ 200
  && f.description.length ≤ 5000
  && validStatuses.contains f.status
  && validPriorities.contains f.priority
  && (match f.due_date with
      | none => true
      | some d => today ≤ d)

/-- Models `form.assigned_to.data if form.assigned_to.data else None`:
the Unassigned choice 0 becomes NULL. -/
def formAssignee (f : TaskForm) : Option Nat :=
  if f.assigned_to = 0 then none else some f.assigned_to

/-- The `changes` list collected by `edit_task` (tasks.py lines
214-226): only title, status, priority and assignee are compared;
assignee values are display names. -/
def editChanges (uname : Nat → String) (t : Task) (f : TaskForm) :
    List (String × String × String) :=
  (if t.title ≠ f.title then [("title", t.title, f.title)] else [])
  ++ (if t.status ≠ f.status then [("status", t.status, f.status)] else [])
  ++ (if t.priority ≠ f.priority then
        [("priority", t.priority, f.priority)] else [])
  ++ (if t.assigned_to ≠ formAssignee f then
        [("assigned_to", assigneeName uname t.assigned_to,
          assigneeName uname (formAssignee f))] else [])

/-- The `edit_task` route (tasks.py lines 192-250) guarded by
`task_access_required`: collects `changes` for title, status, priority
and assignee only, applies title, description, status, priority,
assignee, project and due date, then logs one `updated` entry per
collected change. `estimated_hours` is never touched. -/
def edit_task (uname : Nat → String) (u : User) (t : Task) (p : Project)
    (hist : List TaskHistory) (f : TaskForm) (today : Int) :
    Except RouteError (Task × List TaskHistory) :=
  if ¬ can_access_task u t p then .error .permissionDenied
  else if ¬ taskFormValid f today then .error .validationError
  else
    let t1 : Task :=
      { t with
        title := f.title
        description := f.description
        status := f.status
        priority := f.priority
        assigned_to := formAssignee f
        project_id := f.project_id
        due_date := f.due_date }
    .ok (t1, hist ++ (editChanges uname t f).map (fun c =>
      log_task_history t u "updated" (some c.1) (some c.2.1) (some c.2.2)))

/-- The `create_task` route (tasks.py lines 102-148): builds a Task from the
form (estimated hours and completion default to 0) and logs one
`created` entry with no field/old/new values. -/
def create_task (u : User) (f : TaskForm) (newId : Nat)
    (hist : List TaskHistory) (today : Int) :
    Except RouteError (Task × List TaskHistory) :=
  if ¬ taskFormValid f today then .error .validationError
  else
    let t : Task :=
      { id := newId
        title := f.title
        description := f.description
        status := f.status
        priority := f.priority
        assigned_to := formAssignee f
        created_by := u.id
        project_id := f.project_id
        due_date := f.due_date
        estimated_hours := 0
        completion_percentage := 0 }
    .ok (t, hist ++ [log_task_history t u "created" none none none])

/-- The `reassign_task` route (tasks.py lines 304-333):
`ReassignTaskForm.assigned_to` has `DataRequired()` (rejects the
Unassigned choice 0) and a closed choice list `validUserIds`; logs one
`reassigned` entry with old/new display names. -/
def reassign_task (uname : Nat → String) (validUserIds : List Nat)
    (u : User) (t : Task) (p : Project) (hist : List TaskHistory)
    (aid : Nat) : Except RouteError (Task × List TaskHistory) :=
  if ¬ can_access_task u t p then .error .permissionDenied
  else if aid = 0 ∨ ¬ validUserIds.contains aid then .error .validationError
  else
    .ok ({ t with assigned_to := some aid },
      hist ++ [log_task_history t u "reassigned" (some "assigned_to")
        (some (assigneeName uname t.assigned_to)) (some (uname aid))])

/-- Validation of `TimeLogForm.hours_spent`: `NumberRange(min=0.1, max=24)`
(`DataRequired` is subsumed since 0 is out of range). -/
def hoursValid (h : ℚ) : Bool := (1 / 10 : ℚ) ≤ h && h ≤ 24

/-- The hours snapshot string used by `log_time`. -/
def hoursStr (h : ℚ) : String := toString h ++ "h"

/-- The `log_time` route (tasks.py lines 368-396): appends a TimeLog row and
logs one `logged_time` entry with no old value. -/
def log_time (u : User) (t : Task) (p : Project)
    (logs : List TimeLog) (hist : List TaskHistory) (h : ℚ) (d : Int) :
    Except RouteError (List TimeLog × List TaskHistory) :=
  if ¬ can_access_task u t p then .error .permissionDenied
  else if ¬ hoursValid h then .error .validationError
  else
    .ok (logs ++ [{ task_id := t.id, user_id := u.id,
                    hours_spent := h, logged_date := d }],
      hist ++ [log_task_history t u "logged_time" (some "hours")
        none (some (hoursStr h))])

/-- The `add_comment` route (tasks.py lines 275-301): `CommentForm.content`
is Optional with a 2000 char cap; logs one `commented` entry. -/
def add_comment (u : User) (t : Task) (p : Project)
    (hist : List TaskHistory) (content : String) :
    Except RouteError (List TaskHistory) :=
  if ¬ can_access_task u t p then .error .permissionDenied
  else if ¬ (content.length ≤ 2000) then .error .validationError
  else .ok (hist ++ [log_task_history t u "commented" none none none])

/-- The `delete_task` route (tasks.py lines 253-272): first the
`task_access_required` decorator, then "Only admin, manager, or task
creator can delete". -/
def delete_task (u : User) (t : Task) (p : Project) :
    Except RouteError Unit :=
  if ¬ can_access_task u t p then .error .permissionDenied
  else if ¬ (is_admin u || is_manager u || t.created_by == u.id) then
    .error .permissionDenied
  else .ok ()

/-- Models `Task.logged_hours` (models.py): sum of `hours_spent` over the
task's TimeLog rows (0 if none). -/
def logged_hours (logs : List TimeLog) (tid : Nat) : ℚ :=
  (logs.filter (fun l => l.task_id == tid)).foldl
    (fun acc l => acc + l.hours_spent) 0

/-- Models `Task.remaining_hours` (models.py): `max(0, estimated - logged)`. -/
def remaining_hours (t : Task) (logs : List TimeLog) : ℚ :=
  max 0 (t.estimated_hours - logged_hours logs t.id)

/-- Python `int()`: truncation toward zero. -/
def pyInt (q : ℚ) : Int := if 0 ≤ q then ⌊q⌋ else ⌈q⌉

/-- Models `Task.calculated_completion` (models.py lines 242-248):
`min(100, int(logged / estimated * 100))` when the estimate is positive,
else the stored completion percentage. -/
def calculated_completion (t : Task) (logs : List TimeLog) : Int :=
  if 0 < t.estimated_hours then
    min 100 (pyInt (logged_hours logs t.id / t.estimated_hours * 100))
  else t.completion_percentage

/-- The `create_project` route (projects.py lines 47-73): `manager_required`
decorator, `ProjectForm` validation, then the project is created and
the creator appended to `members`. -/
def create_project (u : User) (name descr : String) (newId : Nat) :
    Except RouteError Project :=
  if ¬ is_manager_or_admin u then .error .permissionDenied
  else if ¬ (name ≠ "" && name.length ≤ 100 && descr.length ≤ 2000) then
    .error .validationError
  else .ok { id := newId, created_by := u.id, members := [u.id] }

/-- A task row as seen by the admin-dashboard burndown query:
creation day, last-update day, status string. -/
structure BTask where
  created_day : Int
  updated_day : Int
  status : String
deriving DecidableEq, Repr

/-- The `tasks_remaining` count of the burndown loop (dashboard.py lines
138-148): created within [start, d] and either not Done, or Done but
updated after d. -/
def tasksRemaining (tasks : List BTask) (start d : Int) : Nat :=
  (tasks.filter (fun t =>
    start ≤ t.created_day && t.created_day ≤ d &&
      (t.status ≠ doneV || (t.status == doneV && d < t.updated_day)))).length

/-- The `tasks_completed` count of the burndown loop (dashboard.py lines
151-155): created on or after start, Done, updated on or before d. -/
def tasksCompleted (tasks : List BTask) (start d : Int) : Nat :=
  (tasks.filter (fun t =>
    start ≤ t.created_day && t.status == doneV && t.updated_day ≤ d)).length

/-- Models `step = max(1, date_range_days // 30)` (dashboard.py line 133),
with `date_range_days = (end - start).days + 1`. -/
def stride (start endDay : Int) : Nat :=
  max 1 (((endDay - start).toNat + 1) / 30)

/-- The `while current_date <= end_date` sampling loop, fuelled by the
number of days in the range (enough since the step is ≥ 1). -/
def sampleLoop : Nat → Int → Int → Nat → List Int
  | 0, _, _, _ => []
  | Nat.succ fuel, cur, endDay, step =>
    if cur ≤ endDay then cur :: sampleLoop fuel (cur + step) endDay step
    else []

/-- The sampled dates of the burndown series (dashboard.py lines
129-186): stride loop from start, then the end date appended when the
last loop sample differs from it. -/
def burndownDates (start endDay : Int) : List Int :=
  let n := (endDay - start).toNat + 1
  let loop := sampleLoop n start endDay (stride start endDay)
  match loop.getLast? with
  | none => loop
  | some l => if l = endDay then loop else loop ++ [endDay]

/-- The `burndown_data` of `admin_dashboard`: one (date, remaining,
completed) triple per sampled date; the route clamps `end < start`
to `end = start` beforehand (dashboard.py lines 60-61). -/
def burndownData (tasks : List BTask) (start endDay : Int) :
    List (Int × Nat × Nat) :=
  let e := if endDay < start then start else endDay
  (burndownDates start e).map
    (fun d => (d, tasksRemaining tasks start d, tasksCompleted tasks start d))

def uname0 : Nat → String := fun _ => "user"

def uAdmin : User := { id := 1, username := "alice", role := .admin }

def uMgr : User := { id := 3, username := "mo", role := .manager }

def uEmp : User := { id := 9, username := "eve", role := .employee }

def uEmpOwner : User := { id := 5, username := "pat", role := .employee }

def pDemo : Project := { id := 1, created_by := 1, members := [1] }

def p9 : Project := { id := 2, created_by := 5, members := [] }

def tDemo : Task :=
  { id := 1, title := "T", description := "old", status := todoV,
    priority := "Medium", assigned_to := none, created_by := 1,
    project_id := 1, due_date := none, estimated_hours := 0,
    completion_percentage := 0 }

def t9 : Task := { tDemo with id := 9, created_by := 7, project_id := 2 }

def fDemo : TaskForm :=
  { title := "T", description := "new", status := todoV, priority := "Medium",
    assigned_to := 0, project_id := 1, due_date := none }

def fProj : TaskForm := { fDemo with description := "old", project_id := 2 }

def logsDemo : List TimeLog :=
  [{ task_id := 1, user_id := 1, hours_spent := 3, logged_date := 0 },
   { task_id := 1, user_id := 1, hours_spent := 4, logged_date := 0 }]

def tEst : Task := { tDemo with estimated_hours := 10 }

/-- What the route commits: the ok payload, or the untouched
(task, history) pair when the request was aborted. -/
def runUpd (t : Task) (hist : List TaskHistory)
    (r : Except RouteError (Task × List TaskHistory)) :
    Task × List TaskHistory :=
  match r with
  | .ok x => x
  | .error _ => (t, hist)

/-- Whether a route call succeeded. -/
def routeOk {α : Type} (r : Except RouteError α) : Bool :=
  match r with
  | .ok _ => true
  | .error _ => false

/-- A fixture form that changes only the title of tDemo. -/
def fTitle : TaskForm := { fDemo with description := "old", title := "T2" }

theorem editChanges_pos (uname : Nat → String) (t : Task) (f : TaskForm) :
    0 < (editChanges uname t f).length ↔
      ¬ (t.title = f.title ∧ t.status = f.status ∧ t.priority = f.priority ∧
         t.assigned_to = formAssignee f) := by
  unfold editChanges
  split_ifs <;> simp_all

theorem editChanges_length (uname : Nat → String) (t : Task) (f : TaskForm) :
    (editChanges uname t f).length =
      (if t.title = f.title then 0 else 1)
      + (if t.status = f.status then 0 else 1)
      + (if t.priority = f.priority then 0 else 1)
      + (if t.assigned_to = formAssignee f then 0 else 1) := by
  unfold editChanges
  split_ifs <;> simp_all

theorem editChanges_mem_title (uname : Nat → String) (t : Task)
    (f : TaskForm) (h : t.title ≠ f.title) :
    ("title", t.title, f.title) ∈ editChanges uname t f := by
  unfold editChanges
  split_ifs <;> simp_all

theorem editChanges_mem_status (uname : Nat → String) (t : Task)
    (f : TaskForm) (h : t.status ≠ f.status) :
    ("status", t.status, f.status) ∈ editChanges uname t f := by
  unfold editChanges
  split_ifs <;> simp_all

theorem editChanges_mem_priority (uname : Nat → String) (t : Task)
    (f : TaskForm) (h : t.priority ≠ f.priority) :
    ("priority", t.priority, f.priority) ∈ editChanges uname t f := by
  unfold editChanges
  split_ifs <;> simp_all

theorem editChanges_mem_assignee (uname : Nat → String) (t : Task)
    (f : TaskForm) (h : t.assigned_to ≠ formAssignee f) :
    ("assigned_to", assigneeName uname t.assigned_to,
      assigneeName uname (formAssignee f)) ∈ editChanges uname t f := by
  unfold editChanges
  split_ifs <;> simp_all

theorem editChanges_mem (uname : Nat → String) (t : Task) (f : TaskForm)
    (c : String × String × String) (hc : c ∈ editChanges uname t f) :
    c.1 = "title" ∨ c.1 = "status" ∨ c.1 = "priority" ∨
      c.1 = "assigned_to" := by
  unfold editChanges at hc
  split_ifs at hc <;> simp_all <;>
    rcases hc with hc | hc | hc | hc <;> simp_all

/-- Claim C1 counterexample: an accepted edit of tDemo changing only the
description is applied (.ok) with an empty history delta, so an accepted
mutation that changes only the description produces no HistoryEntry. -/
theorem edit_description_only_no_history :
    tDemo.description ≠ fDemo.description ∧
    edit_task uname0 uAdmin tDemo pDemo [] fDemo 0 =
      .ok ({ tDemo with description := "new" }, []) :=
  ⟨by decide, rfl⟩

/-- Claim C1 amended: every accepted create, setStatus, setCompletion,
reassign, logTime and comment call appends at least one HistoryEntry in
the same atomic unit, and an accepted edit appends at least one entry
if and only if it changes one of title, status, priority or assignee;
an edit changing only description, project or due date appends none. -/
theorem mutation_history_amended :
    (∀ (u : User) (f : TaskForm) (i : Nat) (hist : List TaskHistory)
       (today : Int) (t' : Task) (h' : List TaskHistory),
       create_task u f i hist today = .ok (t', h') →
         h'.length = hist.length + 1) ∧
    (∀ (u : User) (t : Task) (p : Project) (hist : List TaskHistory)
       (s : String) (t' : Task) (h' : List TaskHistory),
       update_status u t p hist s = .ok (t', h') →
         h'.length = hist.length + 1) ∧
    (∀ (u : User) (t : Task) (p : Project) (hist : List TaskHistory)
       (pct : Int) (t' : Task) (h' : List TaskHistory),
       update_progress u t p hist pct = .ok (t', h') →
         hist.length < h'.length) ∧
    (∀ (uname : Nat → String) (vu : List Nat) (u : User) (t : Task)
       (p : Project) (hist : List TaskHistory) (aid : Nat)
       (t' : Task) (h' : List TaskHistory),
       reassign_task uname vu u t p hist aid = .ok (t', h') →
         h'.length = hist.length + 1) ∧
    (∀ (u : User) (t : Task) (p : Project) (logs : List TimeLog)
       (hist : List TaskHistory) (hrs : ℚ) (d : Int)
       (logs' : List TimeLog) (h' : List TaskHistory),
       log_time u t p logs hist hrs d = .ok (logs', h') →
         h'.length = hist.length + 1) ∧
    (∀ (u : User) (t : Task) (p : Project) (hist : List TaskHistory)
       (c : String) (h' : List TaskHistory),
       add_comment u t p hist c = .ok h' → h'.length = hist.length + 1) ∧
    (∀ (uname : Nat → String) (u : User) (t : Task) (p : Project)
       (hist : List TaskHistory) (f : TaskForm) (today : Int)
       (t' : Task) (h' : List TaskHistory),
       edit_task uname u t p hist f today = .ok (t', h') →
         (hist.length < h'.length ↔
           ¬ (t.title = f.title ∧ t.status = f.status ∧
              t.priority = f.priority ∧
              t.assigned_to = formAssignee f))) := by
  refine ⟨?_, ?_, ?_, ?_, ?_, ?_, ?_⟩
  · intro u f i hist today t' h' h
    unfold create_task at h
    split_ifs at h <;> cases h <;> simp
  · intro u t p hist s t' h' h
    unfold update_status at h
    split_ifs at h <;> cases h <;> simp
  · intro u t p hist pct t' h' h
    unfold update_progress at h
    split_ifs at h <;> cases h <;> simp
  · intro uname vu u t p hist aid t' h' h
    unfold reassign_task at h
    split_ifs at h <;> cases h <;> simp
  · intro u t p logs hist hrs d logs' h' h
    unfold log_time at h
    split_ifs at h <;> cases h <;> simp
  · intro u t p hist c h' h
    unfold add_comment at h
    split_ifs at h <;> cases h <;> simp
  · intro uname u t p hist f today t' h' h
    unfold edit_task at h
    split_ifs at h <;> cases h
    simp only [List.length_append, List.length_map, lt_add_iff_pos_right,
      editChanges_pos]

/-- Claim C1 witness: the setStatus conjunct applied to a concrete
accepted call on tDemo. -/
theorem mutation_history_amended_witness :
    ([log_task_history tDemo uAdmin "status_changed" (some "status")
        (some tDemo.status) (some doneV)] : List TaskHistory).length =
      ([] : List TaskHistory).length + 1 :=
  mutation_history_amended.2.1 uAdmin tDemo pDemo [] doneV
    ({ tDemo with
       status := doneV
       completion_percentage :=
         (if doneV = doneV then 100 else if doneV = todoV then 0
          else tDemo.completion_percentage) })
    ([] ++ [log_task_history tDemo uAdmin "status_changed" (some "status")
        (some tDemo.status) (some doneV)]) rfl

/-- Claim C2 evidence of the code bug at the failing input 0: the
route rejects percentage 0 with a validation error (DataRequired treats
the integer 0 as missing) although the form's own NumberRange message
admits 0..100, while 50 is accepted and 150 is rejected as claimed. -/
theorem updateProgress_zero_rejected :
    update_progress uAdmin tDemo pDemo [] 0 = .error .validationError ∧
    routeOk (update_progress uAdmin tDemo pDemo [] 50) = true ∧
    update_progress uAdmin tDemo pDemo [] 150 = .error .validationError ∧
    progressFormValid 0 = false :=
  ⟨rfl, rfl, rfl, rfl⟩

/-- Claim C3 evidence of the code bug at the failing input 0: for a
task In Progress, setCompletion(task, 0, u) falls in the claim's
"every other case", yet the code rejects it and appends no
progress_updated entry, leaving task and history untouched. -/
theorem setCompletion_zero_no_entry :
    update_progress uAdmin { tDemo with status := inProgressV } pDemo [] 0 =
      .error .validationError ∧
    runUpd { tDemo with status := inProgressV } []
      (update_progress uAdmin { tDemo with status := inProgressV } pDemo [] 0) =
      ({ tDemo with status := inProgressV }, []) :=
  ⟨rfl, rfl⟩

/-- Claim C4: an accepted setStatus forces completion to 100 on Done
and to 0 on To Do, leaves it unchanged otherwise, and appends exactly
one status_changed entry carrying the old and new status strings. -/
theorem setStatus_forces_completion :
    ∀ (u : User) (t : Task) (p : Project) (hist : List TaskHistory) (s : String),
    can_access_task u t p = true →
    validStatuses.contains s = true →
    update_status u t p hist s =
      .ok ({ t with
             status := s
             completion_percentage :=
               (if s = doneV then 100 else if s = todoV then 0
                else t.completion_percentage) },
           hist ++ [log_task_history t u "status_changed" (some "status")
             (some t.status) (some s)]) := by
  intro u t p hist s h1 h2
  have h2' : s ∈ validStatuses := by simpa using h2
  simp [update_status, h1, h2']

/-- Claim C4 witness: the theorem applied to a concrete accepted
setStatus(tDemo, Done, admin) call. -/
theorem setStatus_forces_completion_witness :
    can_access_task uAdmin tDemo pDemo = true ∧
    update_status uAdmin tDemo pDemo [] doneV =
      .ok ({ tDemo with
             status := doneV
             completion_percentage :=
               (if doneV = doneV then 100 else if doneV = todoV then 0
                else tDemo.completion_percentage) },
           [] ++ [log_task_history tDemo uAdmin "status_changed" (some "status")
             (some tDemo.status) (some doneV)]) :=
  ⟨rfl, setStatus_forces_completion uAdmin tDemo pDemo [] doneV rfl rfl⟩

/-- Claim C5 counterexample: an accepted edit changing only the
project is applied (.ok) with an empty history delta, although the
claim requires one updated entry for the changed project field. -/
theorem edit_project_change_unlogged :
    tDemo.project_id ≠ fProj.project_id ∧
    edit_task uname0 uAdmin tDemo pDemo [] fProj 0 =
      .ok ({ tDemo with project_id := 2 }, []) :=
  ⟨by decide, rfl⟩

/-- Claim C5 amended: an accepted edit applies title, description,
status, priority, assignee, project and due date (estimated hours and
completion are untouched), logs exactly one updated entry per changed
field among title, status, priority and assignee - each carrying that
field's old and new values - and logs nothing for any other field. -/
theorem edit_logs_only_four_fields :
    ∀ (uname : Nat → String) (u : User) (t : Task) (p : Project)
      (hist : List TaskHistory) (f : TaskForm) (today : Int)
      (t' : Task) (h' : List TaskHistory),
    edit_task uname u t p hist f today = .ok (t', h') →
    (t'.title = f.title ∧ t'.description = f.description ∧
     t'.status = f.status ∧ t'.priority = f.priority ∧
     t'.assigned_to = formAssignee f ∧
     t'.project_id = f.project_id ∧ t'.due_date = f.due_date ∧
     t'.estimated_hours = t.estimated_hours ∧
     t'.completion_percentage = t.completion_percentage) ∧
    h'.length = hist.length
      + ((if t.title = f.title then 0 else 1)
        + (if t.status = f.status then 0 else 1)
        + (if t.priority = f.priority then 0 else 1)
        + (if t.assigned_to = formAssignee f then 0 else 1)) ∧
    (t.title ≠ f.title →
      log_task_history t u "updated" (some "title")
        (some t.title) (some f.title) ∈ h') ∧
    (t.status ≠ f.status →
      log_task_history t u "updated" (some "status")
        (some t.status) (some f.status) ∈ h') ∧
    (t.priority ≠ f.priority →
      log_task_history t u "updated" (some "priority")
        (some t.priority) (some f.priority) ∈ h') ∧
    (t.assigned_to ≠ formAssignee f →
      log_task_history t u "updated" (some "assigned_to")
        (some (assigneeName uname t.assigned_to))
        (some (assigneeName uname (formAssignee f))) ∈ h') ∧
    (∀ e ∈ h', e ∈ hist ∨
      (e.action = "updated" ∧
        (e.field_name = some "title" ∨ e.field_name = some "status" ∨
         e.field_name = some "priority" ∨
         e.field_name = some "assigned_to"))) := by
  intro uname u t p hist f today t' h' h
  unfold edit_task at h
  split_ifs at h <;> cases h
  refine ⟨⟨rfl, rfl, rfl, rfl, rfl, rfl, rfl, rfl, rfl⟩, ?_, ?_, ?_, ?_, ?_, ?_⟩
  · simp [editChanges_length]
  · intro h1
    simp only [List.mem_append, List.mem_map]
    exact .inr ⟨("title", t.title, f.title),
      editChanges_mem_title uname t f h1, rfl⟩
  · intro h1
    simp only [List.mem_append, List.mem_map]
    exact .inr ⟨("status", t.status, f.status),
      editChanges_mem_status uname t f h1, rfl⟩
  · intro h1
    simp only [List.mem_append, List.mem_map]
    exact .inr ⟨("priority", t.priority, f.priority),
      editChanges_mem_priority uname t f h1, rfl⟩
  · intro h1
    simp only [List.mem_append, List.mem_map]
    exact .inr ⟨("assigned_to", assigneeName uname t.assigned_to,
        assigneeName uname (formAssignee f)),
      editChanges_mem_assignee uname t f h1, rfl⟩
  · intro e he
    simp only [List.mem_append, List.mem_map] at he
    rcases he with he | ⟨c, hc, rfl⟩
    · exact .inl he
    · refine .inr ⟨rfl, ?_⟩
      rcases editChanges_mem uname t f c hc with hx | hx | hx | hx <;>
        simp [log_task_history, hx]

/-- Claim C5 witness: the amended edit theorem applied to a concrete
accepted edit of tDemo that changes only the title. -/
theorem edit_logs_only_four_fields_witness :
    ([log_task_history tDemo uAdmin "updated" (some "title")
        (some tDemo.title) (some fTitle.title)] : List TaskHistory).length =
      ([] : List TaskHistory).length
        + ((if tDemo.title = fTitle.title then 0 else 1)
          + (if tDemo.status = fTitle.status then 0 else 1)
          + (if tDemo.priority = fTitle.priority then 0 else 1)
          + (if tDemo.assigned_to = formAssignee fTitle then 0 else 1)) :=
  (edit_logs_only_four_fields uname0 uAdmin tDemo pDemo [] fTitle 0
    { tDemo with title := "T2" }
    [log_task_history tDemo uAdmin "updated" (some "title")
      (some tDemo.title) (some fTitle.title)] rfl).2.1

/-- Claim C6: a user who is not an admin, not the assignee or creator,
and not a member or creator of the task's project (hence also not a
manager with project access) gets permissionDenied from setStatus, and
the committed state keeps the task and history unchanged. -/
theorem unauthorized_setStatus_denied :
    ∀ (u : User) (t : Task) (p : Project) (hist : List TaskHistory) (s : String),
    is_admin u = false →
    can_access_project u p = false →
    t.assigned_to ≠ some u.id →
    t.created_by ≠ u.id →
    update_status u t p hist s = .error .permissionDenied ∧
    runUpd t hist (update_status u t p hist s) = (t, hist) := by
  intro u t p hist s h1 h2 h3 h4
  have hacc : can_access_task u t p = false := by
    simp [can_access_task, h1, h2, h3, h4]
  constructor
  · simp [update_status, hacc]
  · simp [runUpd, update_status, hacc]

/-- Claim C6 witness: a concrete unrelated employee attempting
setStatus on t9. -/
theorem unauthorized_setStatus_denied_witness :
    is_admin uEmp = false ∧ can_access_project uEmp p9 = false ∧
    t9.assigned_to ≠ some uEmp.id ∧ t9.created_by ≠ uEmp.id ∧
    update_status uEmp t9 p9 [] doneV = .error .permissionDenied ∧
    runUpd t9 [] (update_status uEmp t9 p9 [] doneV) = (t9, []) := by
  refine ⟨rfl, rfl, by simp [t9, tDemo], by simp [t9, tDemo, uEmp], ?_, ?_⟩
  · exact (unauthorized_setStatus_denied uEmp t9 p9 [] doneV rfl rfl
      (by simp [t9, tDemo]) (by simp [t9, tDemo, uEmp])).1
  · exact (unauthorized_setStatus_denied uEmp t9 p9 [] doneV rfl rfl
      (by simp [t9, tDemo]) (by simp [t9, tDemo, uEmp])).2

/-- Claim C7 evidence of the code bug: for a 59-day range the stride is
max(1, floor(59/30)) = 1, not ceil(59/30) = 2, and the series has 59
samples, breaching the 30-sample cap stated by the claim and by the
code's own comment; the 10-day range still yields 10 samples ending on
the final day. -/
theorem burndown_floor_step_overflows :
    (burndownData [] 0 58).length = 59 ∧
    stride 0 58 = 1 ∧
    ¬ ((burndownData [] 0 58).length ≤ 30) ∧
    (59 + 29) / 30 = 2 ∧
    (burndownData [] 0 9).length = 10 ∧
    (burndownDates 0 9).getLast? = some 9 := by
  refine ⟨by decide, by decide, by decide, by decide, by decide, by decide⟩

/-- Claim C8: with nonnegative logged hours, calculatedCompletion is
min(100, floor(logged/estimated*100)) when the estimate is positive and
the stored completion percentage otherwise; the estimated=10 scenario
with 3h and 4h logged gives loggedHours 7, remainingHours 3 and
calculatedCompletion 70. -/
theorem calculatedCompletion_formula :
    (∀ (t : Task) (logs : List TimeLog),
       0 ≤ logged_hours logs t.id →
       calculated_completion t logs =
         if 0 < t.estimated_hours then
           min 100 ⌊logged_hours logs t.id / t.estimated_hours * 100⌋
         else t.completion_percentage) ∧
    logged_hours logsDemo tEst.id = 7 ∧
    remaining_hours tEst logsDemo = 3 ∧
    calculated_completion tEst logsDemo = 70 := by
  refine ⟨?_, ?_, ?_, ?_⟩
  · intro t logs h
    unfold calculated_completion pyInt
    by_cases h1 : 0 < t.estimated_hours
    · have hq : (0 : ℚ) ≤ logged_hours logs t.id / t.estimated_hours * 100 :=
        mul_nonneg (div_nonneg h h1.le) (by norm_num)
      rw [if_pos h1, if_pos h1, if_pos hq]
    · rw [if_neg h1, if_neg h1]
  · norm_num [logged_hours, logsDemo, tEst, tDemo]
  · norm_num [remaining_hours, logged_hours, logsDemo, tEst, tDemo]
  · norm_num [calculated_completion, logged_hours, logsDemo, tEst, tDemo, pyInt]

/-- Claim C8 witness: the formula instantiated at the scenario task. -/
theorem calculatedCompletion_formula_witness :
    calculated_completion tEst logsDemo =
      if 0 < tEst.estimated_hours then
        min 100 ⌊logged_hours logsDemo tEst.id / tEst.estimated_hours * 100⌋
      else tEst.completion_percentage :=
  calculatedCompletion_formula.1 tEst logsDemo
    (by norm_num [logged_hours, logsDemo, tEst, tDemo])

/-- Claim C9 counterexample: an employee who created the task's project
(so isProjectManager per the claim holds and task access is granted) is
nevertheless denied deletion, because the code checks the task creator,
not the project creator. -/
theorem deleteTask_denies_project_creator :
    p9.created_by = uEmpOwner.id ∧
    can_access_task uEmpOwner t9 p9 = true ∧
    delete_task uEmpOwner t9 p9 = .error .permissionDenied :=
  ⟨rfl, rfl, rfl⟩

/-- Claim C9 amended: deleteTask succeeds exactly for users who pass
the task-access check and are an admin, a manager, or the task's
creator; a mere project creator is denied and a manager additionally
needs task access. -/
theorem deleteTask_amended :
    ∀ (u : User) (t : Task) (p : Project),
    delete_task u t p = .ok () ↔
      (can_access_task u t p = true ∧
       (is_admin u = true ∨ is_manager u = true ∨ t.created_by = u.id)) := by
  intro u t p
  constructor
  · intro h
    by_cases hac : can_access_task u t p = true
    · by_cases hrole : (is_admin u || is_manager u || t.created_by == u.id) = true
      · refine ⟨hac, ?_⟩
        have := hrole
        simp only [Bool.or_eq_true, beq_iff_eq] at this
        tauto
      · exact absurd h (by simp [delete_task, hac, hrole])
    · exact absurd h (by simp [delete_task, hac])
  · rintro ⟨hac, hrole⟩
    have hr : (is_admin u || is_manager u || t.created_by == u.id) = true := by
      rcases hrole with hx | hx | hx <;> simp [hx]
    simp [delete_task, hac, hr]

/-- Claim C10: immediately after a successful createProject the creator
is in the new project's explicit member list, so canAccessProject holds
through membership itself. -/
theorem createProject_creator_is_member :
    ∀ (u : User) (name descr : String) (i : Nat) (p : Project),
    create_project u name descr i = .ok p →
    p.members.contains u.id = true ∧ can_access_project u p = true := by
  intro u name descr i p h
  unfold create_project at h
  split_ifs at h
  cases h
  constructor
  · simp
  · simp [can_access_project]

/-- Claim C10 witness: a concrete manager creating a project. -/
theorem createProject_creator_is_member_witness :
    ({ id := 4, created_by := 3, members := [3] } : Project).members.contains
      uMgr.id = true ∧
    can_access_project uMgr { id := 4, created_by := 3, members := [3] } = true :=
  createProject_creator_is_member uMgr "P" "" 4
    { id := 4, created_by := 3, members := [3] } rfl

end EcoG
